import Mathlib

/-!
Shallow embedding of `src/astrai-inference-router/plugin.py`.

Python dictionaries with string keys are modelled as association lists
(`List (String × α)`): lookup returns the first binding, and assignment
(`d[k] = v`) replaces the first binding for `k` in place or appends a new
one, matching CPython insertion-order semantics.  Python `float` values are
modelled as rationals (`ℚ`): every claim below is about the structure of
the computation (which values are added, compared or looked up), not about
binary rounding of individual additions.  Python `float(s)` applied to a
string is modelled by `parseDecimal`: optional surrounding whitespace,
optional sign, digit groups that may contain underscores under CPython's
rule (each underscore between two digits), an optional fractional part and
an optional scientific exponent — every such string denotes an exact
rational, which is what the parser returns.  The special values
`inf`/`infinity`/`nan` are floating-point values with no rational
counterpart and lie outside the ℚ model; accordingly, every theorem whose
content depends on a parse succeeding is guarded by `WFHeaders` (the
request-count facts, which the program establishes before any parse, are
the only ones stated for arbitrary strings).  A string outside the grammar
makes `float` raise `ValueError`, modelled as `none`.
-/

attribute [local semireducible] Rat.add Rat.mul Rat.sub Rat.inv

/-- Python `d[k] = v` on a string-keyed dict: replace the first binding of
`k`, or append `(k, v)` when `k` is absent. -/
def dinsert {α : Type} : List (String × α) → String → α → List (String × α)
  | [], k, v => [(k, v)]
  | (k₀, v₀) :: rest, k, v =>
      if k₀ = k then (k, v) :: rest else (k₀, v₀) :: dinsert rest k v

/-- Sum of the values of a string-keyed dict of naturals. -/
def sumSnd (m : List (String × ℕ)) : ℕ :=
  (m.map Prod.snd).sum

/-- Value of a list of decimal digit characters, most significant first. -/
def natOfDigits (cs : List Char) : ℕ :=
  cs.foldl (fun a c => a * 10 + (c.toNat - 48)) 0

/-- Non-empty all-digit exponent body. -/
def parseExpNat (r : List Char) : Option ℤ :=
  if !r.isEmpty && r.all Char.isDigit then some (natOfDigits r) else none

/-- The part after the `e`/`E` marker: optional sign, then digits. -/
def parseExpPart : List Char → Option ℤ
  | '+' :: r => parseExpNat r
  | '-' :: r => (parseExpNat r).map (fun n => -n)
  | r => parseExpNat r

/-- Scale a mantissa by a decimal exponent (exact on ℚ). -/
def applyExp (q : ℚ) (e : ℤ) : ℚ :=
  if 0 ≤ e then q * (10 : ℚ) ^ e.toNat else q / (10 : ℚ) ^ (-e).toNat

/-- CPython's underscore rule for numeric strings: each `_` must be
immediately preceded and followed by a digit (the first argument carries
the previous character). -/
def underscoresOK : Option Char → List Char → Bool
  | _, [] => true
  | prev, c :: rest =>
      if c = '_' then
        (match prev with
         | some p => p.isDigit
         | none => false) &&
        (match rest with
         | d :: _ => d.isDigit
         | [] => false) &&
        underscoresOK (some c) rest
      else underscoresOK (some c) rest

/-- Unsigned part of the Python `float(s)` grammar (underscores already
stripped): digits with an optional fractional part — at least one digit
between them — and an optional `e`/`E` exponent. -/
def parseUnsigned (cs : List Char) : Option ℚ :=
  let ip := cs.takeWhile Char.isDigit
  let rest := cs.dropWhile Char.isDigit
  match rest with
  | [] => if ip.isEmpty then none else some (natOfDigits ip)
  | '.' :: fp0 =>
      let fp := fp0.takeWhile Char.isDigit
      let rest2 := fp0.dropWhile Char.isDigit
      if ip.isEmpty && fp.isEmpty then none
      else
        let mant : ℚ := (natOfDigits ip : ℚ) + (natOfDigits fp : ℚ) / ((10 : ℚ) ^ fp.length)
        match rest2 with
        | [] => some mant
        | c :: ex =>
            if c = 'e' ∨ c = 'E' then (parseExpPart ex).map (applyExp mant) else none
  | c :: ex =>
      if (c = 'e' ∨ c = 'E') ∧ !ip.isEmpty then
        (parseExpPart ex).map (applyExp ((natOfDigits ip : ℚ)))
      else none

/-- Strip leading and trailing whitespace (Python `float` accepts it). -/
def trimChars (cs : List Char) : List Char :=
  ((cs.dropWhile (fun c => c.isWhitespace)).reverse.dropWhile
    (fun c => c.isWhitespace)).reverse

/-- Model of Python `float(s)` on the rational-valued part of its input
language: whitespace is trimmed, underscores are validated by CPython's
between-two-digits rule and stripped, then an optional sign and the
unsigned grammar (digits, optional fraction, optional exponent) follow.
`none` models a `ValueError`.  The special values `inf`/`infinity`/`nan`
are not rational numbers and are outside this model (see the module
comment). -/
def parseDecimal (s : String) : Option ℚ :=
  let cs := trimChars s.data
  if underscoresOK none cs then
    match cs.filter (fun c => c != '_') with
    | '+' :: rest => parseUnsigned rest
    | '-' :: rest => (parseUnsigned rest).map (fun q => -q)
    | cs' => parseUnsigned cs'
  else none

/-- A string-keyed, string-valued mapping (request headers, response
metadata). -/
abbrev Headers := List (String × String)

/-- `float(headers.get(k, "0") or 0)` from `SavingsTracker.record`:
an absent key defaults to `"0"`, an empty string is falsy and becomes the
int `0`, anything else goes through `float`. -/
def getNum (h : Headers) (k : String) : Option ℚ :=
  match h.lookup k with
  | none => some 0
  | some v => if v = "" then some 0 else parseDecimal v

/-- State of the `SavingsTracker` dataclass. -/
structure SavingsTracker where
  requests : ℕ
  total_cost : ℚ
  total_savings : ℚ
  baseline_cost : ℚ
  by_task_type : List (String × ℚ)
  by_provider : List (String × ℕ)
  session_start : ℚ
deriving DecidableEq

/-- `SavingsTracker()` with the given construction time. -/
def SavingsTracker.init (start : ℚ) : SavingsTracker :=
  { requests := 0
    total_cost := 0
    total_savings := 0
    baseline_cost := 0
    by_task_type := []
    by_provider := []
    session_start := start }

/-- Outcome of a call to `SavingsTracker.record`: `raised t` means a
`ValueError` propagated out of a `float(...)` parse, leaving the tracker in
state `t` (the `requests` increment precedes every parse, so it has already
happened). -/
inductive RecordResult where
  | ok (t : SavingsTracker)
  | raised (t : SavingsTracker)
deriving DecidableEq

/-- The tracker state after the call, whether or not it raised. -/
def RecordResult.state : RecordResult → SavingsTracker
  | .ok t => t
  | .raised t => t

/-- `True` when the call completed without raising. -/
def RecordResult.completed : RecordResult → Bool
  | .ok _ => true
  | .raised _ => false

/-- `SavingsTracker.record(headers)`, statement by statement:
increment `requests`; parse the three numeric fields (any failure raises
there, before the totals are touched); read the two string fields with
their defaults; accumulate. -/
def SavingsTracker.record (t : SavingsTracker) (headers : Headers) : RecordResult :=
  let t1 := { t with requests := t.requests + 1 }
  match getNum headers "X-Astrai-Cost" with
  | none => .raised t1
  | some cost =>
    match getNum headers "X-Astrai-Savings" with
    | none => .raised t1
    | some savings =>
      match getNum headers "X-Astrai-Baseline-Cost" with
      | none => .raised t1
      | some baseline =>
        let task_type := (headers.lookup "X-Astrai-Task-Type").getD "unknown"
        let provider := (headers.lookup "X-Astrai-Provider").getD "unknown"
        .ok { t1 with
          total_cost := t1.total_cost + cost
          total_savings := t1.total_savings + savings
          baseline_cost := t1.baseline_cost + baseline
          by_task_type :=
            dinsert t1.by_task_type task_type
              ((t1.by_task_type.lookup task_type).getD 0 + savings)
          by_provider :=
            dinsert t1.by_provider provider
              ((t1.by_provider.lookup provider).getD 0 + 1) }

/-- A sequence of `record` calls; the tracker object persists across a
propagated exception, so each call continues from the previous post-state. -/
def runRecords (t : SavingsTracker) (ms : List Headers) : SavingsTracker :=
  ms.foldl (fun a m => (a.record m).state) t

/-- The three numeric fields of a metadata mapping all parse (absent or
empty fields count as parsing to `0`), i.e. `record` does not raise. -/
def WFHeaders (m : Headers) : Prop :=
  (getNum m "X-Astrai-Cost").isSome ∧ (getNum m "X-Astrai-Savings").isSome ∧
    (getNum m "X-Astrai-Baseline-Cost").isSome

instance (m : Headers) : Decidable (WFHeaders m) := by
  unfold WFHeaders; infer_instance

/-- Cost carried by a metadata mapping, `0` on absence (matches the
spec's "treated as the zero default" reading). -/
def costOf (m : Headers) : ℚ := (getNum m "X-Astrai-Cost").getD 0

/-- Savings carried by a metadata mapping, `0` on absence. -/
def savingsOf (m : Headers) : ℚ := (getNum m "X-Astrai-Savings").getD 0

/-- Baseline cost carried by a metadata mapping, `0` on absence. -/
def baselineOf (m : Headers) : ℚ := (getNum m "X-Astrai-Baseline-Cost").getD 0

/-- Task type of a metadata mapping, with the `"unknown"` default. -/
def taskOf (m : Headers) : String := (m.lookup "X-Astrai-Task-Type").getD "unknown"

/-- Provider of a metadata mapping, with the `"unknown"` default. -/
def providerOf (m : Headers) : String := (m.lookup "X-Astrai-Provider").getD "unknown"

/-- Decimal digits of `n`, most significant first, via a fuel-indexed
helper so that the kernel can evaluate it (`fuel = n + 1` always
suffices). -/
def natDigitsAux : ℕ → ℕ → List Char
  | 0, _ => []
  | fuel + 1, n =>
      if n < 10 then [Nat.digitChar n]
      else natDigitsAux fuel (n / 10) ++ [Nat.digitChar (n % 10)]

/-- Model of Python `str(n)` for a non-negative integer. -/
def natDigits (n : ℕ) : List Char := natDigitsAux (n + 1) n

/-- Model of Python `str(n)` as a `String`. -/
def natStr (n : ℕ) : String := String.mk (natDigits n)

/-- Floor of a rational as an integer (`Int.fdiv` is floor division). -/
def ratFloor (q : ℚ) : ℤ := Int.fdiv q.num (q.den : ℤ)

/-- `q · 10^p` rounded to the nearest integer, ties to even: the rounding
used by Python's `round(x, p)` and `format(x, '.pf')`. -/
def pyRoundScaled (q : ℚ) (p : ℕ) : ℤ :=
  let s : ℚ := q * ((10 : ℚ) ^ p)
  let fl : ℤ := ratFloor s
  let frac : ℚ := s - (fl : ℚ)
  if frac < 1/2 then fl
  else if (1 : ℚ)/2 < frac then fl + 1
  else if fl % 2 = 0 then fl else fl + 1

/-- Model of Python `round(x, 4)`. -/
def pyRound4 (q : ℚ) : ℚ := (pyRoundScaled q 4 : ℚ) / 10000

/-- Model of the Python fixed-point format `f"{q:.pf}"`. -/
def fmtFixed (q : ℚ) (p : ℕ) : String :=
  let n := pyRoundScaled q p
  let sign := if n < 0 then "-" else ""
  let m := n.natAbs
  if p = 0 then sign ++ String.mk (natDigits m)
  else
    let fd := natDigits (m % 10 ^ p)
    sign ++ String.mk (natDigits (m / 10 ^ p)) ++ "." ++
      String.mk (List.replicate (p - fd.length) '0' ++ fd)

/-- `SavingsTracker.summary()`.  `time.time()` is an external input,
passed here as `now`; the method itself is a pure read of the tracker. -/
def SavingsTracker.summary (t : SavingsTracker) (now : ℚ) : String :=
  let elapsed := now - t.session_start
  let hours := elapsed / 3600
  let rate :=
    if hours > 1/10 then "$" ++ fmtFixed (t.total_savings / hours) 2 ++ "/hr" else ""
  let parts : List String :=
    ["Astrai saved $" ++ fmtFixed t.total_savings 2 ++ " across " ++
      natStr t.requests ++ " requests"]
  let parts := if rate = "" then parts else parts ++ ["(" ++ rate ++ ")"]
  let parts :=
    if t.baseline_cost > 0 then
      parts ++ ["| " ++ fmtFixed (t.total_savings / t.baseline_cost * 100) 0 ++
        "% reduction vs direct API"]
    else parts
  String.intercalate " " parts

/-- The module-level gateway endpoint (default of `ASTRAI_BASE_URL`). -/
def ASTRAI_BASE_URL : String := "https://as-trai.com/v1"

/-- The `RuntimeError` raised on budget exhaustion: its message carries the
formatted budget and the requests-routed-so-far count, kept here also as
structured fields. -/
structure BudgetExceeded where
  budget : ℚ
  requests : ℕ
  message : String
deriving DecidableEq

/-- The message of the budget `RuntimeError`. -/
def budgetMessage (b : ℚ) (n : ℕ) : String :=
  "Daily budget of $" ++ fmtFixed b 2 ++ " reached. " ++ natStr n ++
    " requests routed today."

/-- The mutable `request_kwargs` descriptor: destination, header mapping
and arbitrary passthrough entries (untouched by the plugin). -/
structure RequestKwargs where
  base_url : Option String
  headers : Option Headers
  rest : Headers
deriving DecidableEq

/-- `json.dumps` escaping for the characters a provider credential can
realistically contain (quote and backslash; control characters are outside
the model). -/
def jsonEscape (s : String) : String :=
  String.mk (s.data.foldr
    (fun c acc => if c = '"' ∨ c = '\\' then '\\' :: c :: acc else c :: acc) [])

/-- Model of `json.dumps` on a string-keyed, string-valued dict with the
default separators. -/
def jsonDumps (m : List (String × String)) : String :=
  "\x7b" ++
    String.intercalate ", "
      (m.map (fun kv => "\"" ++ jsonEscape kv.1 ++ "\": \"" ++ jsonEscape kv.2 ++ "\"")) ++
    "\x7d"

/-- State of an `AstraiInferenceRouterPlugin` after a successful
construction (the constructor validations are about configuration loading,
outside the claims below). -/
structure AstraiInferenceRouterPlugin where
  api_key : String
  privacy_mode : String
  region : String
  daily_budget : ℚ
  provider_keys : List (String × String)
  tracker : SavingsTracker
deriving DecidableEq

/-- `intercept_request(payload, request_kwargs)`.  The first component of
the result is the descriptor after the call (Python mutates it in place:
it is untouched when the budget error is raised); the second is either the
raised `RuntimeError` or the returned payload. -/
def AstraiInferenceRouterPlugin.intercept_request {α : Type}
    (p : AstraiInferenceRouterPlugin) (payload : α)
    (request_kwargs : RequestKwargs) :
    RequestKwargs × Except BudgetExceeded α :=
  if 0 < p.daily_budget ∧ p.daily_budget ≤ p.tracker.total_cost then
    (request_kwargs,
      Except.error
        ⟨p.daily_budget, p.tracker.requests,
          budgetMessage p.daily_budget p.tracker.requests⟩)
  else
    let headers := request_kwargs.headers.getD []
    let headers := dinsert headers "Authorization" ("Bearer " ++ p.api_key)
    let headers := dinsert headers "X-Astrai-Provider-Keys" (jsonDumps p.provider_keys)
    let headers := dinsert headers "X-Astrai-Region" p.region
    let headers := dinsert headers "X-Astrai-Privacy" p.privacy_mode
    let headers := dinsert headers "X-Astrai-Source" "openclaw-plugin"
    let headers := dinsert headers "X-Astrai-Available-Providers"
      (String.intercalate "," (p.provider_keys.map Prod.fst))
    ({ request_kwargs with base_url := some ASTRAI_BASE_URL, headers := some headers },
      Except.ok payload)

/-- `intercept_response(response_headers)`: delegates to
`SavingsTracker.record`.  The boolean is `false` when the parse error
propagated out of `record` (and hence out of `intercept_response`). -/
def AstraiInferenceRouterPlugin.intercept_response
    (p : AstraiInferenceRouterPlugin) (response_headers : Headers) :
    AstraiInferenceRouterPlugin × Bool :=
  match p.tracker.record response_headers with
  | .ok t => ({ p with tracker := t }, true)
  | .raised t => ({ p with tracker := t }, false)

/-- The dict returned by `status()`. -/
structure StatusSnapshot where
  status : String
  mode : String
  privacy_mode : String
  region : String
  providers_configured : List String
  provider_count : ℕ
  summary : String
  requests_routed : ℕ
  total_cost_usd : ℚ
  total_savings_usd : ℚ
  savings_by_task_type : List (String × ℚ)
  routing_by_provider : List (String × ℕ)
  daily_budget_usd : ℚ
  budget_remaining_usd : Option ℚ
deriving DecidableEq

/-- `status()`: a pure read of configuration and tracker (`now` feeds the
`summary()` call it embeds). -/
def AstraiInferenceRouterPlugin.status (p : AstraiInferenceRouterPlugin)
    (now : ℚ) : StatusSnapshot :=
  let providers := p.provider_keys.map Prod.fst
  { status := "active"
    mode := "byok"
    privacy_mode := p.privacy_mode
    region := p.region
    providers_configured := providers
    provider_count := providers.length
    summary := p.tracker.summary now
    requests_routed := p.tracker.requests
    total_cost_usd := pyRound4 p.tracker.total_cost
    total_savings_usd := pyRound4 p.tracker.total_savings
    savings_by_task_type := p.tracker.by_task_type
    routing_by_provider := p.tracker.by_provider
    daily_budget_usd := p.daily_budget
    budget_remaining_usd :=
      if 0 < p.daily_budget then
        some (pyRound4 (max 0 (p.daily_budget - p.tracker.total_cost)))
      else none }

/-- `needle` occurs contiguously inside `hay`. -/
def strContains (hay needle : String) : Prop :=
  ∃ s t, hay.data = s ++ needle.data ++ t

/-- The character `c` does not occur in `s`. -/
def noChar (c : Char) (s : String) : Prop :=
  ∀ d ∈ s.data, d ≠ c

instance (c : Char) (s : String) : Decidable (noChar c s) := by
  unfold noChar; infer_instance

/-- A fresh tracker constructed at time `0`. -/
def tZero : SavingsTracker := SavingsTracker.init 0

/-- A well-formed response metadata mapping. -/
def mGood : Headers :=
  [("X-Astrai-Cost", "1.25"), ("X-Astrai-Savings", "0.75"),
   ("X-Astrai-Baseline-Cost", "2"), ("X-Astrai-Task-Type", "code"),
   ("X-Astrai-Provider", "openai")]

/-- Metadata whose cost field is a non-empty, non-numeric string: Python
`float("abc")` raises `ValueError`. -/
def mBadCost : Headers :=
  [("X-Astrai-Cost", "abc"), ("X-Astrai-Savings", "5"), ("X-Astrai-Task-Type", "t")]

/-- Metadata carrying a negative (well-formed) cost. -/
def mNegCost : Headers := [("X-Astrai-Cost", "-1")]

/-- A descriptor with no destination and no headers yet. -/
def kwEmpty : RequestKwargs := { base_url := none, headers := none, rest := [] }

/-- A plugin whose cumulative cost has reached its daily budget. -/
def pOver : AstraiInferenceRouterPlugin :=
  { api_key := "rk", privacy_mode := "enhanced", region := "any",
    daily_budget := 10, provider_keys := [("openai", "k1")],
    tracker := { requests := 3, total_cost := 10, total_savings := 0,
                 baseline_cost := 0, by_task_type := [], by_provider := [],
                 session_start := 0 } }

/-- A plugin still within its daily budget. -/
def pUnder : AstraiInferenceRouterPlugin :=
  { api_key := "rk", privacy_mode := "enhanced", region := "any",
    daily_budget := 10, provider_keys := [("openai", "k1")],
    tracker := SavingsTracker.init 0 }

/-- The budget error raised by `pOver`. -/
def eOver : BudgetExceeded := ⟨10, 3, budgetMessage 10 3⟩

/-! ### Dictionary lemmas -/

theorem lookup_cons {α : Type} (k₀ : String) (v₀ : α) (rest : List (String × α))
    (a : String) :
    List.lookup a ((k₀, v₀) :: rest) =
      if a = k₀ then some v₀ else List.lookup a rest := by
  by_cases h : a = k₀
  · have hb : (a == k₀) = true := beq_iff_eq.mpr h
    simp [List.lookup, hb, h]
  · have hb : (a == k₀) = false := beq_eq_false_iff_ne.mpr h
    simp [List.lookup, hb, h]

theorem lookup_dinsert {α : Type} (m : List (String × α)) (k : String) (v : α)
    (a : String) :
    List.lookup a (dinsert m k v) = if a = k then some v else List.lookup a m := by
  induction m with
  | nil => simp only [dinsert, lookup_cons]
  | cons kv rest ih =>
      obtain ⟨k₀, v₀⟩ := kv
      by_cases h : k₀ = k
      · subst h
        simp only [dinsert, eq_self_iff_true, if_true, lookup_cons]
        split_ifs <;> rfl
      · simp only [dinsert, if_neg h, lookup_cons, ih]
        split_ifs with h1 h2 <;> simp_all

theorem sumSnd_dinsert (m : List (String × ℕ)) (k : String) (c : ℕ) :
    sumSnd (dinsert m k ((List.lookup k m).getD 0 + c)) = sumSnd m + c := by
  induction m with
  | nil => simp [dinsert, sumSnd, List.lookup]
  | cons kv rest ih =>
      obtain ⟨k₀, v₀⟩ := kv
      by_cases h : k₀ = k
      · subst h
        simp [dinsert, sumSnd, List.lookup]
        omega
      · have hk : ¬ (k == k₀) = true := by simp [Ne.symm h]
        simp [dinsert, sumSnd, List.lookup, h, hk] at ih ⊢
        omega

/-! ### `record` lemmas -/

theorem record_state_requests (t : SavingsTracker) (m : Headers) :
    ((t.record m).state).requests = t.requests + 1 := by
  unfold SavingsTracker.record
  cases hc : getNum m "X-Astrai-Cost" <;>
    cases hs : getNum m "X-Astrai-Savings" <;>
      cases hb : getNum m "X-Astrai-Baseline-Cost" <;>
        simp [RecordResult.state]

theorem record_wf (t : SavingsTracker) (m : Headers) (h : WFHeaders m) :
    t.record m = .ok
      { requests := t.requests + 1
        total_cost := t.total_cost + costOf m
        total_savings := t.total_savings + savingsOf m
        baseline_cost := t.baseline_cost + baselineOf m
        by_task_type := dinsert t.by_task_type (taskOf m)
          ((t.by_task_type.lookup (taskOf m)).getD 0 + savingsOf m)
        by_provider := dinsert t.by_provider (providerOf m)
          ((t.by_provider.lookup (providerOf m)).getD 0 + 1)
        session_start := t.session_start } := by
  obtain ⟨h1, h2, h3⟩ := h
  obtain ⟨c, hc⟩ := Option.isSome_iff_exists.mp h1
  obtain ⟨s, hs⟩ := Option.isSome_iff_exists.mp h2
  obtain ⟨b, hb⟩ := Option.isSome_iff_exists.mp h3
  unfold SavingsTracker.record
  rw [hc, hs, hb]
  simp [costOf, savingsOf, baselineOf, taskOf, providerOf, hc, hs, hb]

theorem record_not_wf (t : SavingsTracker) (m : Headers) (h : ¬ WFHeaders m) :
    t.record m = .raised { t with requests := t.requests + 1 } := by
  unfold WFHeaders at h
  unfold SavingsTracker.record
  cases hc : getNum m "X-Astrai-Cost" <;>
    cases hs : getNum m "X-Astrai-Savings" <;>
      cases hb : getNum m "X-Astrai-Baseline-Cost" <;>
        simp [hc, hs, hb] at h ⊢

theorem record_state_wf (t : SavingsTracker) (m : Headers) (h : WFHeaders m) :
    (t.record m).state =
      { requests := t.requests + 1
        total_cost := t.total_cost + costOf m
        total_savings := t.total_savings + savingsOf m
        baseline_cost := t.baseline_cost + baselineOf m
        by_task_type := dinsert t.by_task_type (taskOf m)
          ((t.by_task_type.lookup (taskOf m)).getD 0 + savingsOf m)
        by_provider := dinsert t.by_provider (providerOf m)
          ((t.by_provider.lookup (providerOf m)).getD 0 + 1)
        session_start := t.session_start } := by
  rw [record_wf t m h]
  rfl

/-! ### `runRecords` lemmas -/

theorem runRecords_cons (t : SavingsTracker) (m : Headers) (ms : List Headers) :
    runRecords t (m :: ms) = runRecords ((t.record m).state) ms := rfl

theorem runRecords_requests (ms : List Headers) :
    ∀ t : SavingsTracker, (runRecords t ms).requests = t.requests + ms.length := by
  induction ms with
  | nil => intro t; simp [runRecords]
  | cons m ms ih =>
      intro t
      rw [runRecords_cons, ih, record_state_requests]
      simp
      omega

theorem runRecords_totals (ms : List Headers) :
    ∀ t : SavingsTracker, (∀ m ∈ ms, WFHeaders m) →
      (runRecords t ms).total_cost = t.total_cost + (ms.map costOf).sum ∧
      (runRecords t ms).total_savings = t.total_savings + (ms.map savingsOf).sum ∧
      (runRecords t ms).baseline_cost = t.baseline_cost + (ms.map baselineOf).sum := by
  induction ms with
  | nil => intro t _; simp [runRecords]
  | cons m ms ih =>
      intro t h
      have hm : WFHeaders m := h m (by simp)
      have hrest : ∀ x ∈ ms, WFHeaders x := fun x hx => h x (by simp [hx])
      rw [runRecords_cons, record_state_wf t m hm]
      obtain ⟨h1, h2, h3⟩ := ih _ hrest
      rw [h1, h2, h3]
      simp only [List.map_cons, List.sum_cons]
      refine ⟨?_, ?_, ?_⟩ <;> simp [add_assoc]

theorem runRecords_task (ms : List Headers) (k : String) :
    ∀ t : SavingsTracker, (∀ m ∈ ms, WFHeaders m) →
      ((runRecords t ms).by_task_type.lookup k).getD 0 =
        (t.by_task_type.lookup k).getD 0 +
          (ms.map (fun m => if taskOf m = k then savingsOf m else 0)).sum := by
  induction ms with
  | nil => intro t _; simp [runRecords]
  | cons m ms ih =>
      intro t h
      have hm : WFHeaders m := h m (by simp)
      have hrest : ∀ x ∈ ms, WFHeaders x := fun x hx => h x (by simp [hx])
      rw [runRecords_cons, record_state_wf t m hm, ih _ hrest]
      simp only [List.map_cons, List.sum_cons, lookup_dinsert]
      by_cases hk : k = taskOf m
      · have hk' : taskOf m = k := hk.symm
        simp only [if_pos hk, if_pos hk', Option.getD_some]
        rw [hk]
        ring
      · have hk' : ¬ (taskOf m = k) := fun e => hk e.symm
        simp only [if_neg hk, if_neg hk']
        ring

theorem runRecords_provider_sum (ms : List Headers) :
    ∀ t : SavingsTracker, (∀ m ∈ ms, WFHeaders m) →
      sumSnd (runRecords t ms).by_provider = sumSnd t.by_provider + ms.length := by
  induction ms with
  | nil => intro t _; simp [runRecords]
  | cons m ms ih =>
      intro t h
      have hm : WFHeaders m := h m (by simp)
      have hrest : ∀ x ∈ ms, WFHeaders x := fun x hx => h x (by simp [hx])
      rw [runRecords_cons, record_state_wf t m hm, ih _ hrest]
      simp only [sumSnd_dinsert, List.length_cons]
      omega

/-! ### Monotonicity helpers -/

theorem record_cost_mono (t : SavingsTracker) (m : Headers) (hwf : WFHeaders m)
    (hc : 0 ≤ costOf m) :
    t.total_cost ≤ ((t.record m).state).total_cost := by
  rw [record_state_wf t m hwf]
  show t.total_cost ≤ t.total_cost + costOf m
  linarith

theorem record_baseline_mono (t : SavingsTracker) (m : Headers)
    (hwf : WFHeaders m) (hb : 0 ≤ baselineOf m) :
    t.baseline_cost ≤ ((t.record m).state).baseline_cost := by
  rw [record_state_wf t m hwf]
  show t.baseline_cost ≤ t.baseline_cost + baselineOf m
  linarith

/-! ### Claim theorems -/

/-- C1: `intercept_request` raises the budget error exactly when the
configured daily budget is positive and the tracker's cumulative cost has
reached it (a budget of `0` never triggers it); the error carries the
budget value and the requests-routed-so-far count, and the request
descriptor is left completely unmodified when it raises. -/
theorem intercept_request_budget {α : Type} (p : AstraiInferenceRouterPlugin)
    (payload : α) (kw : RequestKwargs) :
    ((∃ e, (p.intercept_request payload kw).2 = Except.error e) ↔
      0 < p.daily_budget ∧ p.daily_budget ≤ p.tracker.total_cost) ∧
    ∀ e, (p.intercept_request payload kw).2 = Except.error e →
      e.budget = p.daily_budget ∧ e.requests = p.tracker.requests ∧
        (p.intercept_request payload kw).1 = kw := by
  unfold AstraiInferenceRouterPlugin.intercept_request
  by_cases h : 0 < p.daily_budget ∧ p.daily_budget ≤ p.tracker.total_cost
  · rw [if_pos h]
    refine ⟨⟨fun _ => h, fun _ => ⟨_, rfl⟩⟩, ?_⟩
    intro e he
    simp only [Except.error.injEq] at he
    subst he
    exact ⟨rfl, rfl, rfl⟩
  · rw [if_neg h]
    constructor
    · constructor
      · rintro ⟨e, he⟩
        simp at he
      · intro hcond
        exact absurd hcond h
    · intro e he
      simp at he

/-- Witness for C1: the over-budget plugin `pOver` raises an error carrying
its budget and request count and leaves the descriptor untouched. -/
theorem intercept_request_budget_witness :
    eOver.budget = pOver.daily_budget ∧ eOver.requests = pOver.tracker.requests ∧
      (pOver.intercept_request (0 : ℕ) kwEmpty).1 = kwEmpty :=
  (intercept_request_budget pOver 0 kwEmpty).2 eOver rfl

/-- C2: contrary to the claim, `intercept_response` (which delegates to
`SavingsTracker.record`) is not total on malformed numeric strings: with
`X-Astrai-Cost = "abc"` the `float` parse raises (`.2 = false` below) and
the tracker is left with only the request count incremented. -/
theorem intercept_response_raises_on_malformed :
    (pUnder.intercept_response [("X-Astrai-Cost", "abc")]).2 = false ∧
    (pUnder.intercept_response [("X-Astrai-Cost", "abc")]).1.tracker.requests =
      pUnder.tracker.requests + 1 := by
  constructor <;> rfl

/-- C3 is false as stated: a well-formed negative cost string strictly
decreases the cumulative cost. -/
theorem record_negative_cost_decreases :
    ((tZero.record mNegCost).state).total_cost < tZero.total_cost := by decide

/-- C3 (amended): every `record` call increments the request count by
exactly one — even a call whose parse error propagates, since the
increment precedes the parses — so after any sequence the count equals the
number of calls; and the cumulative cost and baseline-cost never decrease
across a call whose numeric fields are well-formed (`WFHeaders`, the
region on which the ℚ model of `float` is faithful) with non-negative
parsed cost and baseline values. -/
theorem record_count_and_monotone (t : SavingsTracker) (m : Headers)
    (ms : List Headers) :
    ((t.record m).state).requests = t.requests + 1 ∧
    (runRecords t ms).requests = t.requests + ms.length ∧
    (WFHeaders m → 0 ≤ costOf m →
      t.total_cost ≤ ((t.record m).state).total_cost) ∧
    (WFHeaders m → 0 ≤ baselineOf m →
      t.baseline_cost ≤ ((t.record m).state).baseline_cost) :=
  ⟨record_state_requests t m, runRecords_requests ms t,
    fun hwf hc => record_cost_mono t m hwf hc,
    fun hwf hb => record_baseline_mono t m hwf hb⟩

/-- Witness for the amended C3 at a concrete metadata mapping, with the
well-formedness and non-negativity hypotheses discharged there. -/
theorem record_count_and_monotone_witness :
    ((tZero.record mGood).state).requests = tZero.requests + 1 ∧
    (runRecords tZero [mGood]).requests = tZero.requests + [mGood].length ∧
    tZero.total_cost ≤ ((tZero.record mGood).state).total_cost ∧
    tZero.baseline_cost ≤ ((tZero.record mGood).state).baseline_cost :=
  ⟨(record_count_and_monotone tZero mGood [mGood]).1,
    (record_count_and_monotone tZero mGood [mGood]).2.1,
    (record_count_and_monotone tZero mGood [mGood]).2.2.1 (by decide) (by decide),
    (record_count_and_monotone tZero mGood [mGood]).2.2.2 (by decide) (by decide)⟩

/-- C4: when the budget check passes, `intercept_request` rewrites the
descriptor's destination to the gateway endpoint, leaves the passthrough
entries alone, and sets the six routing headers; with provider credentials
`[("openai", "k1")]` the available-providers header is exactly
`"openai"`. -/
theorem intercept_request_rewrites {α : Type} (p : AstraiInferenceRouterPlugin)
    (payload : α) (kw : RequestKwargs)
    (h : ¬ (0 < p.daily_budget ∧ p.daily_budget ≤ p.tracker.total_cost)) :
    (p.intercept_request payload kw).1.base_url = some ASTRAI_BASE_URL ∧
    (p.intercept_request payload kw).1.rest = kw.rest ∧
    (((p.intercept_request payload kw).1.headers.getD []).lookup
      "Authorization" = some ("Bearer " ++ p.api_key)) ∧
    (((p.intercept_request payload kw).1.headers.getD []).lookup
      "X-Astrai-Region" = some p.region) ∧
    (((p.intercept_request payload kw).1.headers.getD []).lookup
      "X-Astrai-Privacy" = some p.privacy_mode) ∧
    (((p.intercept_request payload kw).1.headers.getD []).lookup
      "X-Astrai-Source" = some "openclaw-plugin") ∧
    (((p.intercept_request payload kw).1.headers.getD []).lookup
      "X-Astrai-Provider-Keys" = some (jsonDumps p.provider_keys)) ∧
    (((p.intercept_request payload kw).1.headers.getD []).lookup
      "X-Astrai-Available-Providers" =
        some (String.intercalate "," (p.provider_keys.map Prod.fst))) ∧
    (p.provider_keys = [("openai", "k1")] →
      ((p.intercept_request payload kw).1.headers.getD []).lookup
        "X-Astrai-Available-Providers" = some "openai") := by
  unfold AstraiInferenceRouterPlugin.intercept_request
  rw [if_neg h]
  refine ⟨rfl, rfl, ?_, ?_, ?_, ?_, ?_, ?_, ?_⟩
  · simp [lookup_dinsert]
  · simp [lookup_dinsert]
  · simp [lookup_dinsert]
  · simp [lookup_dinsert]
  · simp [lookup_dinsert]
  · simp [lookup_dinsert]
  · intro hpk
    rw [hpk]
    simp [lookup_dinsert]
    rfl

/-- Witness for C4 at the concrete in-budget plugin `pUnder`. -/
theorem intercept_request_rewrites_witness :
    (pUnder.intercept_request (0 : ℕ) kwEmpty).1.base_url = some ASTRAI_BASE_URL ∧
    (pUnder.intercept_request (0 : ℕ) kwEmpty).1.rest = kwEmpty.rest ∧
    (((pUnder.intercept_request (0 : ℕ) kwEmpty).1.headers.getD []).lookup
      "Authorization" = some ("Bearer " ++ pUnder.api_key)) ∧
    (((pUnder.intercept_request (0 : ℕ) kwEmpty).1.headers.getD []).lookup
      "X-Astrai-Region" = some pUnder.region) ∧
    (((pUnder.intercept_request (0 : ℕ) kwEmpty).1.headers.getD []).lookup
      "X-Astrai-Privacy" = some pUnder.privacy_mode) ∧
    (((pUnder.intercept_request (0 : ℕ) kwEmpty).1.headers.getD []).lookup
      "X-Astrai-Source" = some "openclaw-plugin") ∧
    (((pUnder.intercept_request (0 : ℕ) kwEmpty).1.headers.getD []).lookup
      "X-Astrai-Provider-Keys" = some (jsonDumps pUnder.provider_keys)) ∧
    (((pUnder.intercept_request (0 : ℕ) kwEmpty).1.headers.getD []).lookup
      "X-Astrai-Available-Providers" =
        some (String.intercalate "," (pUnder.provider_keys.map Prod.fst))) ∧
    (pUnder.provider_keys = [("openai", "k1")] →
      ((pUnder.intercept_request (0 : ℕ) kwEmpty).1.headers.getD []).lookup
        "X-Astrai-Available-Providers" = some "openai") :=
  intercept_request_rewrites pUnder 0 kwEmpty (by decide)

/-- C5 is false as stated: with a malformed cost string the whole `record`
call aborts, so the savings carried by that call never reach the per-task
map, while the claim's own per-call reading (non-numeric treated as zero)
predicts they do. -/
theorem runRecords_task_sum_cex :
    ((runRecords tZero [mBadCost]).by_task_type.lookup "t").getD 0 ≠
      ([mBadCost].map (fun m => if taskOf m = "t" then savingsOf m else 0)).sum := by
  decide

/-- C5 (amended): over sequences of `record` calls none of which raises
(numeric fields absent, empty or well-formed), the final cumulative
cost/savings/baseline each equal the sum of the per-call values, and each
per-task-type entry equals the sum of the savings of the calls bearing
that task type. -/
theorem runRecords_totals_and_task (s : ℚ) (ms : List Headers) (k : String)
    (h : ∀ m ∈ ms, WFHeaders m) :
    (runRecords (SavingsTracker.init s) ms).total_cost = (ms.map costOf).sum ∧
    (runRecords (SavingsTracker.init s) ms).total_savings = (ms.map savingsOf).sum ∧
    (runRecords (SavingsTracker.init s) ms).baseline_cost = (ms.map baselineOf).sum ∧
    ((runRecords (SavingsTracker.init s) ms).by_task_type.lookup k).getD 0 =
      (ms.map (fun m => if taskOf m = k then savingsOf m else 0)).sum := by
  obtain ⟨h1, h2, h3⟩ := runRecords_totals ms (SavingsTracker.init s) h
  have h4 := runRecords_task ms k (SavingsTracker.init s) h
  rw [h1, h2, h3, h4]
  simp [SavingsTracker.init, List.lookup]

/-- Witness for the amended C5 on a two-call sequence. -/
theorem runRecords_totals_and_task_witness :
    (runRecords (SavingsTracker.init 0) [mGood, mGood]).total_cost =
      ([mGood, mGood].map costOf).sum ∧
    (runRecords (SavingsTracker.init 0) [mGood, mGood]).total_savings =
      ([mGood, mGood].map savingsOf).sum ∧
    (runRecords (SavingsTracker.init 0) [mGood, mGood]).baseline_cost =
      ([mGood, mGood].map baselineOf).sum ∧
    ((runRecords (SavingsTracker.init 0) [mGood, mGood]).by_task_type.lookup
      "code").getD 0 =
      ([mGood, mGood].map (fun m => if taskOf m = "code" then savingsOf m else 0)).sum :=
  runRecords_totals_and_task 0 [mGood, mGood] "code" (by decide)

/-- C6: `record({})` on a freshly constructed tracker sets the request
count to `1`, leaves the three monetary totals at `0.0`, and creates an
`"unknown"` task-type entry with value `0.0`. -/
theorem record_empty_fresh (s : ℚ) :
    (SavingsTracker.init s).record [] =
      .ok { requests := 1, total_cost := 0, total_savings := 0, baseline_cost := 0,
            by_task_type := [("unknown", 0)], by_provider := [("unknown", 1)],
            session_start := s } := by
  have h : WFHeaders ([] : Headers) := by decide
  rw [record_wf (SavingsTracker.init s) [] h]
  simp [SavingsTracker.init, costOf, savingsOf, baselineOf, taskOf, providerOf,
    getNum, List.lookup, dinsert]

/-- C7: whenever `intercept_request` does not raise, the payload it
returns is the payload that was passed in. -/
theorem intercept_request_payload_unchanged {α : Type}
    (p : AstraiInferenceRouterPlugin) (payload : α) (kw : RequestKwargs) (x : α)
    (h : (p.intercept_request payload kw).2 = Except.ok x) : x = payload := by
  unfold AstraiInferenceRouterPlugin.intercept_request at h
  by_cases hb : 0 < p.daily_budget ∧ p.daily_budget ≤ p.tracker.total_cost
  · rw [if_pos hb] at h
    simp at h
  · rw [if_neg hb] at h
    simp at h
    exact h.symm

/-- Witness for C7: the in-budget plugin returns the payload `7`
unchanged. -/
theorem intercept_request_payload_unchanged_witness : (7 : ℕ) = 7 :=
  intercept_request_payload_unchanged pUnder 7 kwEmpty 7 rfl

/-- C9: the status snapshot's remaining-budget field is
`round(max(0, budget − cost), 4)` whenever the daily budget is positive,
and the `None` sentinel when the daily budget is `0`; `status` is a pure
read of the plugin state. -/
theorem status_budget_remaining (p : AstraiInferenceRouterPlugin) (now : ℚ) :
    (0 < p.daily_budget →
      (p.status now).budget_remaining_usd =
        some (pyRound4 (max 0 (p.daily_budget - p.tracker.total_cost)))) ∧
    (p.daily_budget = 0 → (p.status now).budget_remaining_usd = none) := by
  constructor
  · intro h
    simp [AstraiInferenceRouterPlugin.status, h]
  · intro h
    simp [AstraiInferenceRouterPlugin.status, h]

/-- Witness for C9 at the concrete plugin `pUnder` (budget 10, cost 0). -/
theorem status_budget_remaining_witness :
    (pUnder.status 0).budget_remaining_usd =
      some (pyRound4 (max 0 (pUnder.daily_budget - pUnder.tracker.total_cost))) :=
  (status_budget_remaining pUnder 0).1 (by decide)

/-- C10 is false as stated: a `record` call that raises mid-parse
increments the request count but not the per-provider map, so the counts
can fall behind the request count. -/
theorem provider_count_cex :
    sumSnd (runRecords tZero [mBadCost]).by_provider ≠
      (runRecords tZero [mBadCost]).requests := by decide

/-- C10 (amended): every non-raising `record` call increments the
per-provider count under the `X-Astrai-Provider` value (default
`"unknown"`, created on first sight) by exactly one, and over any sequence
of non-raising calls the per-provider counts sum to the request count. -/
theorem record_provider_count (t : SavingsTracker) (m : Headers) (s : ℚ)
    (ms : List Headers) (hm : WFHeaders m) (hms : ∀ x ∈ ms, WFHeaders x) :
    (((t.record m).state).by_provider.lookup (providerOf m)).getD 0 =
      (t.by_provider.lookup (providerOf m)).getD 0 + 1 ∧
    sumSnd (runRecords (SavingsTracker.init s) ms).by_provider =
      (runRecords (SavingsTracker.init s) ms).requests := by
  constructor
  · rw [record_state_wf t m hm]
    simp [lookup_dinsert]
  · rw [runRecords_provider_sum ms _ hms, runRecords_requests]
    simp [SavingsTracker.init, sumSnd]

/-- Witness for the amended C10 at concrete inputs. -/
theorem record_provider_count_witness :
    (((tZero.record mGood).state).by_provider.lookup (providerOf mGood)).getD 0 =
      (tZero.by_provider.lookup (providerOf mGood)).getD 0 + 1 ∧
    sumSnd (runRecords (SavingsTracker.init 0) [mGood]).by_provider =
      (runRecords (SavingsTracker.init 0) [mGood]).requests :=
  record_provider_count tZero mGood 0 [mGood] (by decide) (by decide)

/-! ### String machinery for the `summary` clause claim -/

theorem data_append (a b : String) : (a ++ b).data = a.data ++ b.data := by
  cases a; cases b; rfl

theorem intercalate_one (a : String) : String.intercalate " " [a] = a := rfl

theorem intercalate_two (a b : String) :
    String.intercalate " " [a, b] = a ++ " " ++ b := rfl

theorem intercalate_three (a b c : String) :
    String.intercalate " " [a, b, c] = a ++ " " ++ b ++ " " ++ c := rfl

theorem strContains_refl (n : String) : strContains n n :=
  ⟨[], [], by simp⟩

theorem strContains_append_left (a b n : String) (h : strContains a n) :
    strContains (a ++ b) n := by
  obtain ⟨s, tl, he⟩ := h
  exact ⟨s, tl ++ b.data, by rw [data_append, he]; simp [List.append_assoc]⟩

theorem strContains_append_right (a b n : String) (h : strContains b n) :
    strContains (a ++ b) n := by
  obtain ⟨s, tl, he⟩ := h
  exact ⟨a.data ++ s, tl, by rw [data_append, he]; simp [List.append_assoc]⟩

theorem not_contains_of_noChar (hay needle : String) (c : Char)
    (hc : c ∈ needle.data) (h : noChar c hay) : ¬ strContains hay needle := by
  rintro ⟨s, tl, heq⟩
  have hm : c ∈ hay.data := by
    rw [heq]
    simp [hc]
  exact h c hm rfl

theorem digitChar_isDigit (n : ℕ) (h : n < 10) : (Nat.digitChar n).isDigit = true := by
  interval_cases n <;> decide

theorem natDigitsAux_digits (fuel : ℕ) :
    ∀ n c, c ∈ natDigitsAux fuel n → c.isDigit = true := by
  induction fuel with
  | zero => intro n c hc; simp [natDigitsAux] at hc
  | succ fuel ih =>
      intro n c hc
      unfold natDigitsAux at hc
      by_cases h : n < 10
      · rw [if_pos h] at hc
        simp at hc
        subst hc
        exact digitChar_isDigit n h
      · rw [if_neg h] at hc
        simp at hc
        rcases hc with hc | hc
        · exact ih _ _ hc
        · subst hc
          exact digitChar_isDigit _ (Nat.mod_lt _ (by norm_num))

theorem noChar_mk_digits (c : Char) (hc : c.isDigit = false) (cs : List Char)
    (h : ∀ d ∈ cs, d.isDigit = true) : noChar c (String.mk cs) := by
  intro d hd he
  subst he
  exact absurd (h d hd) (by simp [hc])

theorem noChar_append (c : Char) (a b : String) (ha : noChar c a)
    (hb : noChar c b) : noChar c (a ++ b) := by
  intro d hd
  rw [data_append] at hd
  rcases List.mem_append.mp hd with h | h
  · exact ha d h
  · exact hb d h

theorem noChar_natStr (c : Char) (hc : c.isDigit = false) (n : ℕ) :
    noChar c (natStr n) :=
  noChar_mk_digits c hc (natDigits n) (fun d hd => natDigitsAux_digits (n + 1) n d hd)

theorem noChar_fmtFixed (c : Char) (hc : c.isDigit = false) (hm : c ≠ '-')
    (hd : c ≠ '.') (q : ℚ) (p : ℕ) : noChar c (fmtFixed q p) := by
  have hsign : noChar c (if pyRoundScaled q p < 0 then "-" else "") := by
    by_cases h : pyRoundScaled q p < 0
    · rw [if_pos h]
      intro d hd' he
      have e : ("-" : String).data = ['-'] := rfl
      rw [e] at hd'
      have hdm : d = '-' := by simpa using hd'
      rw [hdm] at he
      exact hm he.symm
    · rw [if_neg h]
      intro d hd' he
      have e : ("" : String).data = [] := rfl
      rw [e] at hd'
      simp at hd'
  have hdig : ∀ n : ℕ, noChar c (String.mk (natDigits n)) := fun n =>
    noChar_mk_digits c hc _ (fun d hdm => natDigitsAux_digits (n + 1) n d hdm)
  have hdot : noChar c "." := by
    intro d hd' he
    have e : ("." : String).data = ['.'] := rfl
    rw [e] at hd'
    have hdm : d = '.' := by simpa using hd'
    rw [hdm] at he
    exact hd he.symm
  simp only [fmtFixed]
  by_cases hp : p = 0
  · rw [if_pos hp]
    exact noChar_append c _ _ hsign (hdig _)
  · rw [if_neg hp]
    refine noChar_append c _ _
      (noChar_append c _ _ (noChar_append c _ _ hsign (hdig _)) hdot) ?_
    apply noChar_mk_digits c hc
    intro d hdm
    rcases List.mem_append.mp hdm with h | h
    · rw [List.eq_of_mem_replicate h]
      decide
    · exact natDigitsAux_digits _ _ d h

theorem ne_empty_dollar (x : String) : ¬ ("$" ++ x ++ "/hr") = "" := by
  intro h
  have h2 := congrArg String.data h
  rw [data_append, data_append] at h2
  have e1 : ("$" : String).data = ['$'] := rfl
  have e2 : ("" : String).data = [] := rfl
  rw [e1, e2] at h2
  simp at h2

theorem noChar_base (c : Char) (hc : c.isDigit = false) (hm : c ≠ '-')
    (hd : c ≠ '.') (l1 : noChar c "Astrai saved $") (l2 : noChar c " across ")
    (l3 : noChar c " requests") (x : ℚ) (n : ℕ) :
    noChar c ("Astrai saved $" ++ fmtFixed x 2 ++ " across " ++ natStr n ++
      " requests") :=
  noChar_append c _ _
    (noChar_append c _ _
      (noChar_append c _ _ (noChar_append c _ _ l1 (noChar_fmtFixed c hc hm hd x 2)) l2)
      (noChar_natStr c hc n)) l3

/-! ### `summary` case equations -/

theorem summary_eq_no (t : SavingsTracker) (now : ℚ)
    (hR : ¬ (now - t.session_start) / 3600 > 1/10) (hP : ¬ t.baseline_cost > 0) :
    t.summary now =
      "Astrai saved $" ++ fmtFixed t.total_savings 2 ++ " across " ++
        natStr t.requests ++ " requests" := by
  simp only [SavingsTracker.summary, if_neg hR, if_neg hP]
  simp [intercalate_one]

theorem summary_eq_rate (t : SavingsTracker) (now : ℚ)
    (hR : (now - t.session_start) / 3600 > 1/10) (hP : ¬ t.baseline_cost > 0) :
    t.summary now =
      "Astrai saved $" ++ fmtFixed t.total_savings 2 ++ " across " ++
          natStr t.requests ++ " requests" ++ " " ++
        ("(" ++ ("$" ++ fmtFixed (t.total_savings / ((now - t.session_start) / 3600)) 2 ++
          "/hr") ++ ")") := by
  simp only [SavingsTracker.summary, if_pos hR, if_neg hP,
    if_neg (ne_empty_dollar (fmtFixed (t.total_savings / ((now - t.session_start) / 3600)) 2))]
  simp [intercalate_two]

theorem summary_eq_pct (t : SavingsTracker) (now : ℚ)
    (hR : ¬ (now - t.session_start) / 3600 > 1/10) (hP : t.baseline_cost > 0) :
    t.summary now =
      "Astrai saved $" ++ fmtFixed t.total_savings 2 ++ " across " ++
          natStr t.requests ++ " requests" ++ " " ++
        ("| " ++ fmtFixed (t.total_savings / t.baseline_cost * 100) 0 ++
          "% reduction vs direct API") := by
  simp only [SavingsTracker.summary, if_neg hR, if_pos hP]
  simp [intercalate_two]

theorem summary_eq_both (t : SavingsTracker) (now : ℚ)
    (hR : (now - t.session_start) / 3600 > 1/10) (hP : t.baseline_cost > 0) :
    t.summary now =
      "Astrai saved $" ++ fmtFixed t.total_savings 2 ++ " across " ++
          natStr t.requests ++ " requests" ++ " " ++
        ("(" ++ ("$" ++ fmtFixed (t.total_savings / ((now - t.session_start) / 3600)) 2 ++
          "/hr") ++ ")") ++ " " ++
        ("| " ++ fmtFixed (t.total_savings / t.baseline_cost * 100) 0 ++
          "% reduction vs direct API") := by
  simp only [SavingsTracker.summary, if_pos hR, if_pos hP,
    if_neg (ne_empty_dollar (fmtFixed (t.total_savings / ((now - t.session_start) / 3600)) 2))]
  simp [intercalate_three]

/-- C8: `summary()` includes the hourly-savings-rate clause (the `"/hr"`
fragment) exactly when the elapsed session time exceeds the 0.1-hour
threshold, and the percentage-reduction clause exactly when the cumulative
baseline cost is strictly positive; being modelled as a pure function of
the tracker state and the clock reading, it is deterministic and mutates
nothing. -/
theorem summary_clause_conditions (t : SavingsTracker) (now : ℚ) :
    (strContains (t.summary now) "/hr" ↔ (now - t.session_start) / 3600 > 1/10) ∧
    (strContains (t.summary now) "% reduction vs direct API" ↔
      t.baseline_cost > 0) := by
  have hslash : ('/' : Char) ∈ ("/hr" : String).data := by decide
  have hpct : ('%' : Char) ∈ ("% reduction vs direct API" : String).data := by decide
  have hBs : noChar '/' ("Astrai saved $" ++ fmtFixed t.total_savings 2 ++
      " across " ++ natStr t.requests ++ " requests") :=
    noChar_base '/' (by decide) (by decide) (by decide) (by decide) (by decide)
      (by decide) t.total_savings t.requests
  have hBp : noChar '%' ("Astrai saved $" ++ fmtFixed t.total_savings 2 ++
      " across " ++ natStr t.requests ++ " requests") :=
    noChar_base '%' (by decide) (by decide) (by decide) (by decide) (by decide)
      (by decide) t.total_savings t.requests
  have hPs : noChar '/' ("| " ++ fmtFixed (t.total_savings / t.baseline_cost * 100) 0 ++
      "% reduction vs direct API") :=
    noChar_append '/' _ _
      (noChar_append '/' _ _ (by decide)
        (noChar_fmtFixed '/' (by decide) (by decide) (by decide) _ 0)) (by decide)
  have hRp : noChar '%' ("(" ++ ("$" ++
      fmtFixed (t.total_savings / ((now - t.session_start) / 3600)) 2 ++ "/hr") ++ ")") :=
    noChar_append '%' _ _
      (noChar_append '%' _ _ (by decide)
        (noChar_append '%' _ _
          (noChar_append '%' _ _ (by decide)
            (noChar_fmtFixed '%' (by decide) (by decide) (by decide) _ 2)) (by decide)))
      (by decide)
  have hRhas : strContains ("(" ++ ("$" ++
      fmtFixed (t.total_savings / ((now - t.session_start) / 3600)) 2 ++ "/hr") ++ ")")
      "/hr" :=
    strContains_append_left _ ")" _
      (strContains_append_right "(" _ _
        (strContains_append_right _ "/hr" _ (strContains_refl _)))
  have hPhas : strContains ("| " ++ fmtFixed (t.total_savings / t.baseline_cost * 100) 0 ++
      "% reduction vs direct API") "% reduction vs direct API" :=
    strContains_append_right _ _ _ (strContains_refl _)
  by_cases hR : (now - t.session_start) / 3600 > 1/10 <;>
    by_cases hP : t.baseline_cost > 0
  · rw [summary_eq_both t now hR hP]
    constructor
    · refine iff_of_true ?_ hR
      exact strContains_append_left _ _ _ (strContains_append_left _ " " _
        (strContains_append_right _ _ _ hRhas))
    · refine iff_of_true ?_ hP
      exact strContains_append_right _ _ _ hPhas
  · rw [summary_eq_rate t now hR hP]
    constructor
    · refine iff_of_true ?_ hR
      exact strContains_append_right _ _ _ hRhas
    · refine iff_of_false ?_ hP
      refine not_contains_of_noChar _ _ '%' hpct ?_
      exact noChar_append '%' _ _ (noChar_append '%' _ _ hBp (by decide)) hRp
  · rw [summary_eq_pct t now hR hP]
    constructor
    · refine iff_of_false ?_ hR
      refine not_contains_of_noChar _ _ '/' hslash ?_
      exact noChar_append '/' _ _ (noChar_append '/' _ _ hBs (by decide)) hPs
    · refine iff_of_true ?_ hP
      exact strContains_append_right _ _ _ hPhas
  · rw [summary_eq_no t now hR hP]
    constructor
    · exact iff_of_false (not_contains_of_noChar _ _ '/' hslash hBs) hR
    · exact iff_of_false (not_contains_of_noChar _ _ '%' hpct hBp) hP
